import Mathlib

/-!
Verification of the CreatorCoin AI service (`ai-service/`) against its
natural-language specification.

The Python source is shallowly embedded in Lean 4:
* scores, timestamps and TTLs (Python `float`) become `ℚ`;
* Python dictionaries holding heterogeneous records become Lean structures;
* the in-memory cache dictionary becomes an association list threaded
  explicitly through `cacheGet` / `cacheSet`;
* `random`/`numpy` draws and the results of sub-analyses that consume them
  are passed in as explicit parameters, so every function is deterministic;
* Python's `round(x, 3)` becomes `round3` (exact rational rounding to three
  decimals; Python's float `round` is banker's rounding on the binary value,
  which agrees with `round3` away from exact `.0005` ties — all concrete
  inputs used below stay away from ties).
-/

/-- `round(x, 3)` from Python, on exact rationals. -/
def round3 (q : ℚ) : ℚ := (round (q * 1000) : ℤ) / 1000

/-! ## utils/cache.py — `CacheManager`

The cache dictionary `self.cache : Dict[str, Dict[str, Any]]` becomes an
association list from keys to entries; `time.time()` becomes an explicit
`now : ℚ` argument.  -/

/-- One cache entry, mirroring the dict literal built in `CacheManager.set`. -/
structure CacheEntry (α : Type) where
  value : α
  created_at : ℚ
  last_accessed : ℚ
  expires_at : ℚ
  ttl : ℚ

/-- The cache store `self.cache`. -/
abbrev CacheState (α : Type) := List (String × CacheEntry α)

/-- Dictionary lookup `self.cache[key]` (with the `key in self.cache` test). -/
def cacheFind (s : CacheState α) (k : String) : Option (CacheEntry α) :=
  (s.find? (fun p => p.1 == k)).map (·.2)

/-- `CacheManager.set(key, value, ttl)` at time `now`: stores the entry with
`expires_at = now + ttl` (dictionary assignment replaces any previous
binding for the key). -/
def cacheSet (now : ℚ) (k : String) (v : α) (ttl : ℚ) (s : CacheState α) :
    CacheState α :=
  (k, ⟨v, now, now, now + ttl, ttl⟩) :: s.filter (fun p => p.1 != k)

/-- `CacheManager.get(key)` at time `now`.  Returns the hit/miss outcome and
the updated store: a missing key is a miss; a present key with
`now > expires_at` is deleted and reported as a miss (lazy expiration);
otherwise the value is returned and `last_accessed` is refreshed. -/
def cacheGet (now : ℚ) (k : String) (s : CacheState α) :
    Option α × CacheState α :=
  match s.find? (fun p => p.1 == k) with
  | none => (none, s)
  | some pe =>
    if pe.2.expires_at < now then
      (none, s.filter (fun p => p.1 != k))
    else
      (some pe.2.value,
       s.map (fun p => if p.1 == k then (p.1, { p.2 with last_accessed := now }) else p))

/-- After filtering out every pair with key `k`, a search for key `k` fails. -/
theorem find_filter_bne_eq_none (s : List (String × β)) (k : String) :
    (s.filter (fun p => p.1 != k)).find? (fun p => p.1 == k) = none := by
  rw [List.find?_eq_none]
  intro x hx
  rw [List.mem_filter] at hx
  simpa using hx.2

/-- C2: immediately after `set(k, v, ttl)` with positive TTL, `get(k)` hits
and returns `v`; and `get(k)` on a present entry whose `expires_at` lies
strictly in the past misses and evicts the entry (lazy expiration). -/
theorem cache_set_get_roundtrip_and_lazy_expiration :
    (∀ (α : Type) (now : ℚ) (k : String) (v : α) (ttl : ℚ) (s : CacheState α),
      0 < ttl → (cacheGet now k (cacheSet now k v ttl s)).1 = some v) ∧
    (∀ (α : Type) (now : ℚ) (k : String) (s : CacheState α) (e : CacheEntry α),
      cacheFind s k = some e → e.expires_at < now →
      (cacheGet now k s).1 = none ∧ cacheFind (cacheGet now k s).2 k = none) := by
  constructor
  · intro α now k v ttl s httl
    have h1 : (cacheSet now k v ttl s).find? (fun p => p.1 == k)
        = some (k, ⟨v, now, now, now + ttl, ttl⟩) := by
      unfold cacheSet
      exact List.find?_cons_of_pos _ (by simp)
    have hnot : ¬ (now + ttl < now) := by linarith
    simp [cacheGet, h1, hnot]
  · intro α now k s e hfind hexp
    simp only [cacheFind, Option.map_eq_some'] at hfind
    obtain ⟨pe, hpe, hval⟩ := hfind
    have hcond : pe.2.expires_at < now := by rw [hval]; exact hexp
    refine ⟨?_, ?_⟩ <;>
      simp [cacheGet, hpe, hcond, cacheFind, find_filter_bne_eq_none]

/-- Concrete cache store used to witness the lazy-expiration branch:
one entry under key `"a"` that expired at time 5. -/
def exCacheState : CacheState ℕ := [("a", ⟨7, 0, 0, 5, 5⟩)]

/-- Witness for C2 at concrete inputs: a fresh `set`/`get` round-trip at time
0 with TTL 10, and a `get` at time 10 on the entry that expired at time 5. -/
theorem cache_set_get_roundtrip_and_lazy_expiration_witness :
    (cacheGet 0 "a" (cacheSet (α := ℕ) 0 "a" 7 10 [])).1 = some 7 ∧
    ((cacheGet 10 "a" exCacheState).1 = none ∧
      cacheFind (cacheGet 10 "a" exCacheState).2 "a" = none) :=
  ⟨cache_set_get_roundtrip_and_lazy_expiration.1 ℕ 0 "a" 7 10 [] (by norm_num),
   cache_set_get_roundtrip_and_lazy_expiration.2 ℕ 10 "a" exCacheState ⟨7, 0, 0, 5, 5⟩
     (by simp [exCacheState, cacheFind]) (by norm_num)⟩

/-! ## services/quality_scorer.py — `QualityScorer`

The `features` dictionary is embedded as a structure of `Option` fields:
`features.get('x', d)` becomes `x.getD d` (the default is the one used at
each call site, which varies in the source), and a bare truthiness test
`if features.get('x'):` becomes a match on the `Option` with Python's
falsiness of `None` and `0`. -/

/-- The feature dictionary fields read by `QualityScorer`. -/
structure Features where
  title_length : Option ℚ := none
  title_has_caps : Option Bool := none
  title_exclamation_count : Option ℚ := none
  title_question_count : Option ℚ := none
  title_word_count : Option ℚ := none
  video_duration : Option ℚ := none
  brightness_score : Option ℚ := none
  contrast_score : Option ℚ := none
  color_variety : Option ℚ := none
  color_diversity : Option ℚ := none
  ai_engagement_potential : Option ℚ := none
  ai_educational_value : Option ℚ := none
  ai_content_depth : Option ℚ := none
  ai_originality : Option ℚ := none
  ai_safety_score : Option ℚ := none
  ai_production_quality : Option ℚ := none
  ai_category : Option String := none
  motion_score : Option ℚ := none
  face_detection_confidence : Option ℚ := none
  description_hashtag_count : Option ℚ := none
  description_length : Option ℚ := none
  description_word_count : Option ℚ := none
  avg_word_length : Option ℚ := none
  description_has_links : Option Bool := none
  scene_changes : Option ℚ := none
  text_overlay_detected : Option Bool := none
  emoji_count : Option ℚ := none
  composition_score : Option ℚ := none
  aspect_ratio : Option ℚ := none
  toxicity_score : Option ℚ := none
  capitalization_ratio : Option ℚ := none
  sentiment_score : Option ℚ := none
  sharpness_score : Option ℚ := none
  estimated_resolution : Option String := none
  has_audio : Option Bool := none
  estimated_fps : Option ℚ := none

/-- `QualityScorer._calculate_engagement_score`. -/
def calculate_engagement_score (f : Features) : ℚ :=
  let score : ℚ := 1/2
  let tl := f.title_length.getD 0
  let score := if 10 ≤ tl ∧ tl ≤ 60 then score + 1/10 else score
  let score := if f.title_has_caps.getD false then score + 1/20 else score
  let score := if 0 < f.title_exclamation_count.getD 0 then score + 1/20 else score
  let score := if 0 < f.title_question_count.getD 0 then score + 1/20 else score
  -- `if features.get('video_duration'):` — None and 0 are falsy
  let score := match f.video_duration with
    | none => score
    | some d =>
      if d = 0 then score
      else if 15 ≤ d ∧ d ≤ 60 then score + 3/20
      else if d < 5 then score - 1/10
      else if 180 < d then score - 1/10
      else score
  let score := if 1/2 < f.brightness_score.getD 0 then score + 1/20 else score
  let score := if 3/5 < f.contrast_score.getD 0 then score + 1/20 else score
  let score := if 3/5 < f.color_variety.getD 0 then score + 1/20 else score
  let score := (score + f.ai_engagement_potential.getD (1/2)) / 2
  let score := if 3/10 < f.motion_score.getD 0 then score + 1/10 else score
  let score := if 7/10 < f.face_detection_confidence.getD 0 then score + 1/20 else score
  let hc := f.description_hashtag_count.getD 0
  let score := if 2 ≤ hc ∧ hc ≤ 10 then score + 1/20 else score
  max 0 (min 1 score)

/-- `QualityScorer._calculate_educational_score`. -/
def calculate_educational_score (f : Features) : ℚ :=
  let score : ℚ := 3/10
  let score := (score + f.ai_educational_value.getD (3/10)) / 2
  let dl := f.description_length.getD 0
  let score := if 100 < dl then score + 3/20 else score
  let score := if 300 < dl then score + 1/10 else score
  let score := if 50 < f.description_word_count.getD 0 then score + 1/10 else score
  let score := if 5 < f.avg_word_length.getD 0 then score + 1/20 else score
  let score := (score + f.ai_content_depth.getD (3/10)) / 2
  let score := if f.description_has_links.getD false then score + 1/10 else score
  let score := if 60 < f.video_duration.getD 0 then score + 1/10 else score
  let cat := f.ai_category.getD ""
  let score := if cat = "education" ∨ cat = "technology" ∨ cat = "science" ∨ cat = "tutorial"
    then score + 1/5 else score
  max 0 (min 1 score)

/-- `QualityScorer._calculate_creativity_score`. -/
def calculate_creativity_score (f : Features) : ℚ :=
  let score : ℚ := 2/5
  let score := (score + f.ai_originality.getD (2/5)) / 2
  let score := if 7/10 < f.color_variety.getD 0 then score + 1/10 else score
  let score := if 3/5 < f.color_diversity.getD 0 then score + 1/20 else score
  let sc := f.scene_changes.getD 0
  let dur := f.video_duration.getD 30
  let score := if 0 < dur ∧ 1/10 < sc / dur then score + 1/10 else score
  let score := if f.text_overlay_detected.getD false then score + 1/20 else score
  let score := if 8 < f.title_word_count.getD 0 then score + 1/20 else score
  let ec := f.emoji_count.getD 0
  let score := if 1 ≤ ec ∧ ec ≤ 5 then score + 1/20 else score
  let score := if 7/10 < f.composition_score.getD 0 then score + 1/10 else score
  let ar := f.aspect_ratio.getD 1
  let score := if ¬ (9/10 ≤ ar ∧ ar ≤ 11/10) then score + 1/20 else score
  max 0 (min 1 score)

/-- `QualityScorer._calculate_safety_score`. -/
def calculate_safety_score (f : Features) : ℚ :=
  let score : ℚ := 4/5
  let score := (score + f.ai_safety_score.getD (4/5)) / 2
  let score := score - f.toxicity_score.getD 0 * (1/2)
  let score := if 3/10 < f.capitalization_ratio.getD 0 then score - 1/10 else score
  let score := if 3 < f.title_exclamation_count.getD 0 then score - 1/20 else score
  let sent := f.sentiment_score.getD 0
  let score := if sent < -(3/10) then score - 1/10
    else if 3/10 < sent then score + 1/20 else score
  let b := f.brightness_score.getD (1/2)
  let score := if b < 1/5 ∨ 9/10 < b then score - 1/20 else score
  max 0 (min 1 score)

/-- `QualityScorer._calculate_production_score`. -/
def calculate_production_score (f : Features) : ℚ :=
  let score : ℚ := 1/2
  let score := (score + f.ai_production_quality.getD (1/2)) / 2
  let sh := f.sharpness_score.getD 0
  let score := if 7/10 < sh then score + 3/20
    else if sh < 3/10 then score - 1/10 else score
  let b := f.brightness_score.getD (1/2)
  let score := if 3/10 ≤ b ∧ b ≤ 4/5 then score + 1/20 else score
  let score := if 1/2 < f.contrast_score.getD 0 then score + 1/20 else score
  let score := if f.estimated_resolution = some "1080p" then score + 1/10
    else if f.estimated_resolution = some "4K" then score + 3/20 else score
  let score := if f.has_audio.getD false then score + 1/20 else score
  let score := if 3/5 < f.composition_score.getD 0 then score + 1/10 else score
  let score := if 30 ≤ f.estimated_fps.getD 0 then score + 1/20 else score
  let score := if 4/5 < f.face_detection_confidence.getD 0 then score + 1/20 else score
  max 0 (min 1 score)

/-- The weight configuration `self.weights` of `QualityScorer.__init__`
(engagement 0.25, educational 0.20, creativity 0.20, safety 0.15,
production 0.20). -/
structure QualityWeights where
  engagement : ℚ
  educational : ℚ
  creativity : ℚ
  safety : ℚ
  production : ℚ

/-- The hard-coded scorer weights. -/
def scorerWeights : QualityWeights :=
  { engagement := 1/4, educational := 1/5, creativity := 1/5,
    safety := 3/20, production := 1/5 }

/-- The scoring thresholds `self.thresholds` of `QualityScorer.__init__`. -/
def qualityThresholds : List (String × ℚ) :=
  [("excellent", 4/5), ("good", 3/5), ("fair", 2/5), ("poor", 1/5)]

/-- `QualityScorer._get_quality_rating`: threshold comparison against
`self.thresholds` (excellent ≥ 0.8, good ≥ 0.6, fair ≥ 0.4, else poor). -/
def get_quality_rating (score : ℚ) : String :=
  if 4/5 ≤ score then "excellent"
  else if 3/5 ≤ score then "good"
  else if 2/5 ≤ score then "fair"
  else "poor"

/-- The fields of the result dictionary built by
`QualityScorer.calculate_scores` that the claims are about. -/
structure QualityScores where
  overall_score : ℚ
  quality_rating : String
  engagement : ℚ
  educational : ℚ
  creativity : ℚ
  safety : ℚ
  production : ℚ

/-- `QualityScorer.calculate_scores`: the five dimension scores, the weighted
overall score, the rating from the unrounded overall score, and the returned
fields rounded to three decimals as in the source (`round(x, 3)`). -/
def calculate_scores (f : Features) : QualityScores :=
  let engagement_score := calculate_engagement_score f
  let educational_score := calculate_educational_score f
  let creativity_score := calculate_creativity_score f
  let safety_score := calculate_safety_score f
  let production_score := calculate_production_score f
  let overall_score :=
    engagement_score * scorerWeights.engagement +
    educational_score * scorerWeights.educational +
    creativity_score * scorerWeights.creativity +
    safety_score * scorerWeights.safety +
    production_score * scorerWeights.production
  { overall_score := round3 overall_score
    quality_rating := get_quality_rating overall_score
    engagement := round3 engagement_score
    educational := round3 educational_score
    creativity := round3 creativity_score
    safety := round3 safety_score
    production := round3 production_score }

/-! ### Rounding and clamping lemmas -/

theorem round3_nonneg {q : ℚ} (h : 0 ≤ q) : 0 ≤ round3 q := by
  unfold round3
  have h1 : (0:ℤ) ≤ round (q * 1000) := by
    rw [round_eq]
    exact Int.le_floor.mpr (by push_cast; linarith)
  positivity

theorem round3_le_one {q : ℚ} (h : q ≤ 1) : round3 q ≤ 1 := by
  unfold round3
  have h1 : round (q * 1000) ≤ 1000 := by
    rw [round_eq]
    have h2 : (⌊q * 1000 + 1/2⌋ : ℤ) ≤ ⌊(2001:ℚ)/2⌋ := Int.floor_le_floor (by linarith)
    have h3 : (⌊(2001:ℚ)/2⌋ : ℤ) = 1000 := by
      rw [Int.floor_eq_iff]
      norm_num
    omega
  rw [div_le_one (by norm_num)]
  exact_mod_cast h1

theorem abs_round3_sub_le (q : ℚ) : |round3 q - q| ≤ 1/2000 := by
  have h := abs_sub_round (q * 1000)
  have h2 : round3 q - q = ((round (q * 1000) : ℚ) - q * 1000) / 1000 := by
    unfold round3; ring
  rw [h2, abs_div]
  rw [abs_sub_comm] at h
  rw [abs_of_pos (show (0:ℚ) < 1000 by norm_num)]
  linarith

/-- `max(0.0, min(1.0, score))`, the clamp every dimension score ends with. -/
theorem clamp_bounds (x : ℚ) : 0 ≤ max 0 (min 1 x) ∧ max 0 (min 1 x) ≤ 1 :=
  ⟨le_max_left _ _, max_le (by norm_num) (min_le_left _ _)⟩

theorem calculate_engagement_score_mem (f : Features) :
    0 ≤ calculate_engagement_score f ∧ calculate_engagement_score f ≤ 1 := by
  unfold calculate_engagement_score; exact clamp_bounds _

theorem calculate_educational_score_mem (f : Features) :
    0 ≤ calculate_educational_score f ∧ calculate_educational_score f ≤ 1 := by
  unfold calculate_educational_score; exact clamp_bounds _

theorem calculate_creativity_score_mem (f : Features) :
    0 ≤ calculate_creativity_score f ∧ calculate_creativity_score f ≤ 1 := by
  unfold calculate_creativity_score; exact clamp_bounds _

theorem calculate_safety_score_mem (f : Features) :
    0 ≤ calculate_safety_score f ∧ calculate_safety_score f ≤ 1 := by
  unfold calculate_safety_score; exact clamp_bounds _

theorem calculate_production_score_mem (f : Features) :
    0 ≤ calculate_production_score f ∧ calculate_production_score f ≤ 1 := by
  unfold calculate_production_score; exact clamp_bounds _

/-- C3 (amended): every returned sub-score and the returned overall score lie
in [0,1], and the returned overall score equals the weighted sum of the
returned sub-scores within 1e-3.  (The unrounded overall score is exactly the
weighted sum of the unrounded sub-scores; all returned fields are rounded to
three decimals by `round(x, 3)`, which admits a discrepancy of up to 1e-3 and
rules out the claimed 1e-6 tolerance.) -/
theorem calculate_scores_ranges_and_weighted_sum (f : Features) :
    (0 ≤ (calculate_scores f).engagement ∧ (calculate_scores f).engagement ≤ 1) ∧
    (0 ≤ (calculate_scores f).educational ∧ (calculate_scores f).educational ≤ 1) ∧
    (0 ≤ (calculate_scores f).creativity ∧ (calculate_scores f).creativity ≤ 1) ∧
    (0 ≤ (calculate_scores f).safety ∧ (calculate_scores f).safety ≤ 1) ∧
    (0 ≤ (calculate_scores f).production ∧ (calculate_scores f).production ≤ 1) ∧
    (0 ≤ (calculate_scores f).overall_score ∧ (calculate_scores f).overall_score ≤ 1) ∧
    |(calculate_scores f).overall_score -
      ((calculate_scores f).engagement * scorerWeights.engagement +
       (calculate_scores f).educational * scorerWeights.educational +
       (calculate_scores f).creativity * scorerWeights.creativity +
       (calculate_scores f).safety * scorerWeights.safety +
       (calculate_scores f).production * scorerWeights.production)| ≤ 1/1000 := by
  obtain ⟨he0, he1⟩ := calculate_engagement_score_mem f
  obtain ⟨hd0, hd1⟩ := calculate_educational_score_mem f
  obtain ⟨hc0, hc1⟩ := calculate_creativity_score_mem f
  obtain ⟨hs0, hs1⟩ := calculate_safety_score_mem f
  obtain ⟨hp0, hp1⟩ := calculate_production_score_mem f
  set e := calculate_engagement_score f with hedef
  set d := calculate_educational_score f with hddef
  set c := calculate_creativity_score f with hcdef
  set s := calculate_safety_score f with hsdef
  set p := calculate_production_score f with hpdef
  have hov : (calculate_scores f).overall_score =
      round3 (e * (1/4) + d * (1/5) + c * (1/5) + s * (3/20) + p * (1/5)) := rfl
  have hfe : (calculate_scores f).engagement = round3 e := rfl
  have hfd : (calculate_scores f).educational = round3 d := rfl
  have hfc : (calculate_scores f).creativity = round3 c := rfl
  have hfs : (calculate_scores f).safety = round3 s := rfl
  have hfp : (calculate_scores f).production = round3 p := rfl
  have ho0 : 0 ≤ e * (1/4) + d * (1/5) + c * (1/5) + s * (3/20) + p * (1/5) := by linarith
  have ho1 : e * (1/4) + d * (1/5) + c * (1/5) + s * (3/20) + p * (1/5) ≤ 1 := by linarith
  have ae := abs_le.mp (abs_round3_sub_le e)
  have ad := abs_le.mp (abs_round3_sub_le d)
  have ac := abs_le.mp (abs_round3_sub_le c)
  have as2 := abs_le.mp (abs_round3_sub_le s)
  have ap := abs_le.mp (abs_round3_sub_le p)
  have ao := abs_le.mp
    (abs_round3_sub_le (e * (1/4) + d * (1/5) + c * (1/5) + s * (3/20) + p * (1/5)))
  refine ⟨⟨?_, ?_⟩, ⟨?_, ?_⟩, ⟨?_, ?_⟩, ⟨?_, ?_⟩, ⟨?_, ?_⟩, ⟨?_, ?_⟩, ?_⟩
  · rw [hfe]; exact round3_nonneg he0
  · rw [hfe]; exact round3_le_one he1
  · rw [hfd]; exact round3_nonneg hd0
  · rw [hfd]; exact round3_le_one hd1
  · rw [hfc]; exact round3_nonneg hc0
  · rw [hfc]; exact round3_le_one hc1
  · rw [hfs]; exact round3_nonneg hs0
  · rw [hfs]; exact round3_le_one hs1
  · rw [hfp]; exact round3_nonneg hp0
  · rw [hfp]; exact round3_le_one hp1
  · rw [hov]; exact round3_nonneg ho0
  · rw [hov]; exact round3_le_one ho1
  · rw [hov, hfe, hfd, hfc, hfs, hfp]
    simp only [scorerWeights]
    rw [abs_le]
    constructor <;> linarith

/-- Feature set witnessing the failure of the 1e-6 tolerance: only
`ai_engagement_potential` is present, with value 0.1112. -/
def exFeatures : Features := { ai_engagement_potential := some (1112/10000) }

/-- C3 counterexample: on `exFeatures` the returned `overall_score` is 0.426
while the weighted sum of the returned (3-decimal-rounded) sub-scores is
0.4265, a discrepancy of 5e-4 > 1e-6. -/
theorem calculate_scores_tolerance_counterexample :
    1/1000000 <
      |(calculate_scores exFeatures).overall_score -
        ((calculate_scores exFeatures).engagement * scorerWeights.engagement +
         (calculate_scores exFeatures).educational * scorerWeights.educational +
         (calculate_scores exFeatures).creativity * scorerWeights.creativity +
         (calculate_scores exFeatures).safety * scorerWeights.safety +
         (calculate_scores exFeatures).production * scorerWeights.production)| := by
  have h1 : calculate_engagement_score exFeatures = 3056/10000 := by
    norm_num [calculate_engagement_score, exFeatures]
  have h2 : calculate_educational_score exFeatures = 3/10 := by
    norm_num [calculate_educational_score, exFeatures]
    simp
    norm_num [max_def, min_def]
  have h3 : calculate_creativity_score exFeatures = 2/5 := by
    norm_num [calculate_creativity_score, exFeatures]
  have h4 : calculate_safety_score exFeatures = 4/5 := by
    norm_num [calculate_safety_score, exFeatures]
  have h5 : calculate_production_score exFeatures = 9/20 := by
    norm_num [calculate_production_score, exFeatures]
    simp
    norm_num [max_def, min_def]
  have hfe : (calculate_scores exFeatures).engagement =
      round3 (calculate_engagement_score exFeatures) := rfl
  have hfd : (calculate_scores exFeatures).educational =
      round3 (calculate_educational_score exFeatures) := rfl
  have hfc : (calculate_scores exFeatures).creativity =
      round3 (calculate_creativity_score exFeatures) := rfl
  have hfs : (calculate_scores exFeatures).safety =
      round3 (calculate_safety_score exFeatures) := rfl
  have hfp : (calculate_scores exFeatures).production =
      round3 (calculate_production_score exFeatures) := rfl
  have hov : (calculate_scores exFeatures).overall_score =
      round3 (calculate_engagement_score exFeatures * (1/4) +
        calculate_educational_score exFeatures * (1/5) +
        calculate_creativity_score exFeatures * (1/5) +
        calculate_safety_score exFeatures * (3/20) +
        calculate_production_score exFeatures * (1/5)) := rfl
  rw [hov, hfe, hfd, hfc, hfs, hfp, h1, h2, h3, h4, h5]
  simp only [scorerWeights]
  have hov2 : round3 (3056/10000 * (1/4) + 3/10 * (1/5) + 2/5 * (1/5) + 4/5 * (3/20) +
      9/20 * (1/5)) = 426/1000 := by norm_num [round3, round_eq]
  have hr1 : round3 (3056/10000) = 306/1000 := by norm_num [round3, round_eq]
  have hr2 : round3 (3/10) = 3/10 := by norm_num [round3, round_eq]
  have hr3 : round3 (2/5) = 2/5 := by norm_num [round3, round_eq]
  have hr4 : round3 (4/5) = 4/5 := by norm_num [round3, round_eq]
  have hr5 : round3 (9/20) = 9/20 := by norm_num [round3, round_eq]
  rw [hov2, hr1, hr2, hr3, hr4, hr5]
  have hdiff : (426:ℚ)/1000 -
      (306/1000 * (1/4) + 3/10 * (1/5) + 2/5 * (1/5) + 4/5 * (3/20) + 9/20 * (1/5))
      = -(1/2000) := by norm_num
  rw [hdiff, abs_neg, abs_of_pos (by norm_num : (0:ℚ) < 1/2000)]
  norm_num

/-- C4: the quality-rating thresholds, exactly as the claim states them, with
the four boundary evaluations 0.8 → excellent, 0.79999 → good, 0.4 → fair,
0.39999 → poor. -/
theorem get_quality_rating_thresholds :
    (∀ s : ℚ, (get_quality_rating s = "excellent" ↔ 4/5 ≤ s) ∧
      (get_quality_rating s = "good" ↔ 3/5 ≤ s ∧ s < 4/5) ∧
      (get_quality_rating s = "fair" ↔ 2/5 ≤ s ∧ s < 3/5) ∧
      (get_quality_rating s = "poor" ↔ s < 2/5)) ∧
    get_quality_rating (4/5) = "excellent" ∧
    get_quality_rating (79999/100000) = "good" ∧
    get_quality_rating (2/5) = "fair" ∧
    get_quality_rating (39999/100000) = "poor" := by
  constructor
  · intro s
    by_cases h1 : (4:ℚ)/5 ≤ s <;>
    by_cases h2 : (3:ℚ)/5 ≤ s <;>
    by_cases h3 : (2:ℚ)/5 ≤ s <;>
      simp [get_quality_rating, h1, h2, h3] <;>
      linarith
  · refine ⟨?_, ?_, ?_, ?_⟩ <;> norm_num [get_quality_rating]

/-! ## services/fraud_detector.py — `FraudDetector`

The content-fraud entry point `detect_content_fraud` is embedded in two
layers, exactly following the source's own structure: the six sub-check
results (lines 49–115) are gathered in `CheckResults`, and the aggregation of
indicators, confidence score, risk level and recommendations (lines 41–151)
is `detect_content_fraud_core`.  Sub-checks that consume `np.random` draws or
mutable creator history (`_detect_undisclosed_ai_content`,
`_detect_engagement_fraud`, `_analyze_creator_behavior`,
`_detect_quality_inconsistency`) enter as explicit result parameters; the two
deterministic ones (`_detect_metadata_manipulation`,
`_check_duplicate_content` with its random draw passed in) are embedded in
full.  Human-readable `description`/`details` fields of indicators are log
strings and are omitted. -/

/-- The `metadata` sub-dictionary fields read by
`_detect_metadata_manipulation`; `Option` captures absent keys. -/
structure Metadata where
  creation_time : Option ℚ := none
  upload_time : Option ℚ := none
  edit_count : ℚ := 0
  title : Option String := none
  description : Option String := none
  duration : Option ℚ := none

/-- Python truthiness of an optional number (`None` and `0` are falsy). -/
def numTruthy : Option ℚ → Bool
  | none => false
  | some q => decide (q ≠ 0)

/-- Python truthiness of an optional string (`None` and `""` are falsy). -/
def strTruthy : Option String → Bool
  | none => false
  | some s => decide (s ≠ "")

/-- `if creation_time and upload_time: ... abs(upload_time - creation_time) >
86400 * 30` from `_detect_metadata_manipulation`. -/
def meta_timestamp_issue (m : Metadata) : Bool :=
  numTruthy m.creation_time && numTruthy m.upload_time &&
    decide (86400 * 30 < |m.upload_time.getD 0 - m.creation_time.getD 0|)

/-- `edit_count > 20` from `_detect_metadata_manipulation`. -/
def meta_edit_issue (m : Metadata) : Bool := decide (20 < m.edit_count)

/-- Number of falsy required fields among `title`, `description`,
`duration`. -/
def meta_missing_count (m : Metadata) : ℕ :=
  (if strTruthy m.title then 0 else 1) + (if strTruthy m.description then 0 else 1) +
    (if numTruthy m.duration then 0 else 1)

/-- `len(missing_fields) > 1` from `_detect_metadata_manipulation`. -/
def meta_incomplete_issue (m : Metadata) : Bool := decide (1 < meta_missing_count m)

/-- The result record of `_detect_metadata_manipulation`. -/
structure MetaCheck where
  detected : Bool
  score : ℚ
  issues : List String

/-- `FraudDetector._detect_metadata_manipulation`: contributions 0.3
(timestamp gap > 30 days), 0.2 (edit_count > 20) and 0.1 (more than one
required field missing); `detected` iff the summed score exceeds 0.2. -/
def detect_metadata_manipulation (m : Metadata) : MetaCheck :=
  let manipulation_score : ℚ :=
    (if meta_timestamp_issue m then 3/10 else 0) +
    (if meta_edit_issue m then 1/5 else 0) +
    (if meta_incomplete_issue m then 1/10 else 0)
  { detected := decide (1/5 < manipulation_score)
    score := round3 manipulation_score
    issues := (if meta_timestamp_issue m then ["timestamp_inconsistency"] else []) ++
      (if meta_edit_issue m then ["excessive_edits"] else []) ++
      (if meta_incomplete_issue m then ["incomplete_metadata"] else []) }

/-- Result record of `_detect_engagement_fraud` as consumed by the
aggregation. -/
structure EngagementFraud where
  detected : Bool
  confidence : ℚ

/-- Result record of `_analyze_creator_behavior` as consumed by the
aggregation. -/
structure BehaviorFraud where
  suspicious : Bool
  score : ℚ
  severity : String

/-- Result record of `_detect_quality_inconsistency` as consumed by the
aggregation. -/
structure QualityFraud where
  detected : Bool
  score : ℚ

/-- The six sub-check results that `detect_content_fraud` aggregates. -/
structure CheckResults where
  duplicate_score : ℚ
  ai_detection_score : ℚ
  engagement : EngagementFraud
  behavior : BehaviorFraud
  quality : QualityFraud
  metadata : MetaCheck

/-- One entry of the `fraud_indicators` list. -/
structure FraudIndicator where
  type : String
  score : ℚ
  severity : String

/-- The `fraud_indicators` list built in `detect_content_fraud` (appends in
source order 1–6; firing conditions: duplicate > SIMILARITY_THRESHOLD = 0.85,
AI score > AI_CONTENT_CONFIDENCE_THRESHOLD = 0.8, and the sub-check flags). -/
def fraud_indicators_of (c : CheckResults) : List FraudIndicator :=
  (if 17/20 < c.duplicate_score then
    [⟨"duplicate_content", round3 c.duplicate_score,
      if 19/20 < c.duplicate_score then "high" else "medium"⟩] else []) ++
  (if 4/5 < c.ai_detection_score then
    [⟨"undisclosed_ai_content", round3 c.ai_detection_score, "medium"⟩] else []) ++
  (if c.engagement.detected then
    [⟨"engagement_manipulation", c.engagement.confidence,
      if 4/5 < c.engagement.confidence then "high" else "medium"⟩] else []) ++
  (if c.behavior.suspicious then
    [⟨"suspicious_behavior", c.behavior.score, c.behavior.severity⟩] else []) ++
  (if c.quality.detected then
    [⟨"quality_inconsistency", c.quality.score, "medium"⟩] else []) ++
  (if c.metadata.detected then
    [⟨"metadata_manipulation", c.metadata.score, "low"⟩] else [])

/-- The `confidence_score` accumulated in `detect_content_fraud`: fixed
contributions 0.4, 0.25, 0.5, 0.3, 0.2, 0.1 for checks 1–6. -/
def confidence_score_of (c : CheckResults) : ℚ :=
  (if 17/20 < c.duplicate_score then 2/5 else 0) +
  (if 4/5 < c.ai_detection_score then 1/4 else 0) +
  (if c.engagement.detected then 1/2 else 0) +
  (if c.behavior.suspicious then 3/10 else 0) +
  (if c.quality.detected then 1/5 else 0) +
  (if c.metadata.detected then 1/10 else 0)

/-- `FraudDetector._generate_fraud_recommendations`. -/
def generate_fraud_recommendations (fraud_indicators : List FraudIndicator)
    (risk_level : String) : List String :=
  (if risk_level = "high" then
    ["Suspend content pending manual review",
     "Flag creator account for investigation",
     "Implement additional verification requirements"]
   else if risk_level = "medium" then
    ["Require manual review before monetization",
     "Implement enhanced monitoring",
     "Request additional creator verification"]
   else
    ["Continue standard monitoring", "No immediate action required"]) ++
  (if fraud_indicators.any (·.type == "duplicate_content") then
    ["Implement content fingerprinting", "Check against copyright databases"] else []) ++
  (if fraud_indicators.any (·.type == "engagement_manipulation") then
    ["Audit engagement patterns", "Implement engagement velocity limits"] else []) ++
  (if fraud_indicators.any (·.type == "undisclosed_ai_content") then
    ["Require AI content disclosure", "Implement AI detection watermarking"] else [])

/-- The result dictionary of `detect_content_fraud`. -/
structure FraudResult where
  content_id : String
  fraud_detected : Bool
  fraud_probability : ℚ
  risk_level : String
  confidence_score : ℚ
  fraud_indicators : List FraudIndicator
  recommendations : List String

/-- The success path of `detect_content_fraud` (lines 41–151): aggregates the
sub-check results, derives the risk level (`> 0.7` high, `> 0.4` medium, else
low), caps the fraud probability at 1 and rounds the reported scores. -/
def detect_content_fraud_core (content_id : String) (c : CheckResults) : FraudResult :=
  let fraud_indicators := fraud_indicators_of c
  let confidence_score := confidence_score_of c
  let risk_level :=
    if 7/10 < confidence_score then "high"
    else if 2/5 < confidence_score then "medium"
    else "low"
  let fraud_probability := min 1 confidence_score
  { content_id := content_id
    fraud_detected := !fraud_indicators.isEmpty
    fraud_probability := round3 fraud_probability
    risk_level := risk_level
    confidence_score := round3 confidence_score
    fraud_indicators := fraud_indicators
    recommendations := generate_fraud_recommendations fraud_indicators risk_level }

/-- `FraudDetector._get_fallback_fraud_result`. -/
def get_fallback_fraud_result (content_id : String) : FraudResult :=
  { content_id := content_id
    fraud_detected := false
    fraud_probability := 1/2
    risk_level := "medium"
    confidence_score := 0
    fraud_indicators := []
    recommendations := ["Manual review recommended due to analysis failure"] }

/-- The content record fields used by content-fraud detection. -/
structure ContentData where
  content_id : String
  title : String
  description : String
  metadata : Metadata := {}

/-- `FraudDetector.detect_content_fraud` with its `try/except`: `outcome` is
`.ok` with the sub-check results when the analysis body runs to completion,
and `.error` when it raises, in which case the fallback result is returned. -/
def detect_content_fraud (cd : ContentData) (outcome : Except Unit CheckResults) :
    FraudResult :=
  match outcome with
  | .error _ => get_fallback_fraud_result cd.content_id
  | .ok c => detect_content_fraud_core cd.content_id c

/-- `FraudDetector._generate_content_hash`: the MD5 hexdigest of
`title + description`.  The digest is modelled by the hashed string itself
(MD5 is a fixed function of it, injective in the absence of collisions). -/
def generate_content_hash (cd : ContentData) : String :=
  cd.title ++ cd.description

/-- `FraudDetector._check_duplicate_content`: an exact hash hit returns
similarity 1.0; otherwise the mock similarity draw `r` (uniform on [0, 0.3]
in the source) is returned and the hash is registered in
`self.content_hashes`. -/
def check_duplicate_content (r : ℚ) (cd : ContentData) (hashes : List String) :
    ℚ × List String :=
  let h := generate_content_hash cd
  if h ∈ hashes then (1, hashes) else (r, h :: hashes)

/-- The environment-dependent sub-check results of checks 2–5 (random draws
and creator history), supplied as parameters. -/
structure FraudEnv where
  ai_detection_score : ℚ
  engagement : EngagementFraud
  behavior : BehaviorFraud
  quality : QualityFraud

/-- A full run of `detect_content_fraud` threading the detector's
`content_hashes` state: check 1 via `check_duplicate_content`, check 6 via
`detect_metadata_manipulation`, checks 2–5 from `env`. -/
def run_detect_content_fraud (env : FraudEnv) (r : ℚ) (cd : ContentData)
    (hashes : List String) : FraudResult × List String :=
  let dup := check_duplicate_content r cd hashes
  (detect_content_fraud_core cd.content_id
    { duplicate_score := dup.1
      ai_detection_score := env.ai_detection_score
      engagement := env.engagement
      behavior := env.behavior
      quality := env.quality
      metadata := detect_metadata_manipulation cd.metadata }, dup.2)

/-- `FraudDetector._calculate_risk_level` (used by `detect_user_fraud`):
high ≥ 0.8, medium ≥ 0.5, low ≥ 0.3, else minimal. -/
def calculate_risk_level (confidence_score : ℚ) : String :=
  if 4/5 ≤ confidence_score then "high"
  else if 1/2 ≤ confidence_score then "medium"
  else if 3/10 ≤ confidence_score then "low"
  else "minimal"

/-- `FraudDetector._get_recommended_action`: the `actions` lookup with
default `manual_review`. -/
def get_recommended_action (risk_level : String) : String :=
  if risk_level = "high" then "block_content"
  else if risk_level = "medium" then "flag_for_review"
  else if risk_level = "low" then "monitor"
  else if risk_level = "minimal" then "allow"
  else if risk_level = "unknown" then "manual_review"
  else "manual_review"

/-- C1: when exactly the duplicate-content check (similarity 0.95) and the
metadata-manipulation check (score 0.25) fire, the aggregated confidence
score is 0.4 + 0.1 = 0.5, the risk level is "medium", and the recommended
action for that risk level is "flag_for_review". -/
theorem detect_content_fraud_dup_meta_aggregation (cd : ContentData) (c : CheckResults)
    (hdup : c.duplicate_score = 19/20)
    (hai : c.ai_detection_score ≤ 4/5)
    (heng : c.engagement.detected = false)
    (hbeh : c.behavior.suspicious = false)
    (hqual : c.quality.detected = false)
    (hmeta : c.metadata.detected = true)
    (hmetascore : c.metadata.score = 1/4) :
    (detect_content_fraud cd (.ok c)).confidence_score = 1/2 ∧
    (detect_content_fraud cd (.ok c)).risk_level = "medium" ∧
    get_recommended_action (detect_content_fraud cd (.ok c)).risk_level
      = "flag_for_review" := by
  have hred : detect_content_fraud cd (.ok c) = detect_content_fraud_core cd.content_id c :=
    rfl
  rw [hred]
  have hconf : confidence_score_of c = 1/2 := by
    unfold confidence_score_of
    rw [hdup, if_neg (not_lt.mpr hai), heng, hbeh, hqual, hmeta]
    norm_num
  have hrisk : (detect_content_fraud_core cd.content_id c).risk_level = "medium" := by
    unfold detect_content_fraud_core
    rw [hconf]
    norm_num
  refine ⟨?_, hrisk, ?_⟩
  · show round3 (confidence_score_of c) = 1/2
    rw [hconf]
    norm_num [round3, round_eq]
  · rw [hrisk]
    simp [get_recommended_action]

/-- Concrete sub-check results witnessing C1: only the duplicate (0.95) and
metadata (0.25) checks fire. -/
def exChecks : CheckResults :=
  { duplicate_score := 19/20
    ai_detection_score := 0
    engagement := ⟨false, 0⟩
    behavior := ⟨false, 0, "low"⟩
    quality := ⟨false, 0⟩
    metadata := ⟨true, 1/4, ["incomplete_metadata"]⟩ }

/-- Witness for C1 at `exChecks`. -/
theorem detect_content_fraud_dup_meta_aggregation_witness :
    (detect_content_fraud ⟨"c1", "t", "d", {}⟩ (.ok exChecks)).confidence_score = 1/2 ∧
    (detect_content_fraud ⟨"c1", "t", "d", {}⟩ (.ok exChecks)).risk_level = "medium" ∧
    get_recommended_action
      (detect_content_fraud ⟨"c1", "t", "d", {}⟩ (.ok exChecks)).risk_level
      = "flag_for_review" :=
  detect_content_fraud_dup_meta_aggregation ⟨"c1", "t", "d", {}⟩ exChecks rfl
    (by norm_num [exChecks]) rfl rfl rfl rfl rfl

/-- C5 (amended): the metadata-manipulation check fires iff the timestamp gap
exceeds 30 days, or both `edit_count > 20` and more than one required field
is missing.  (Each of the latter two conditions alone scores 0.2 or 0.1,
which does not exceed the 0.2 detection threshold, so alone neither
fires — contrary to the claim's pure disjunction.) -/
theorem detect_metadata_manipulation_fires_iff (m : Metadata) :
    (detect_metadata_manipulation m).detected =
      (meta_timestamp_issue m || (meta_edit_issue m && meta_incomplete_issue m)) := by
  unfold detect_metadata_manipulation
  cases h1 : meta_timestamp_issue m <;> cases h2 : meta_edit_issue m <;>
    cases h3 : meta_incomplete_issue m <;>
    simp [h1, h2, h3] <;> norm_num

/-- Metadata with `edit_count = 21` and everything else in order: the claim's
disjunction predicts the check fires, but it does not. -/
def exMeta : Metadata :=
  { edit_count := 21, title := some "t", description := some "d", duration := some 30 }

/-- C5 counterexample: `edit_count > 20` alone does not fire the
metadata-manipulation check (score 0.2 is not `> 0.2`). -/
theorem detect_metadata_manipulation_edit_only_counterexample :
    20 < exMeta.edit_count ∧ (detect_metadata_manipulation exMeta).detected = false := by
  constructor
  · norm_num [exMeta]
  · simp [detect_metadata_manipulation, exMeta, meta_timestamp_issue, meta_edit_issue,
      meta_incomplete_issue, meta_missing_count, numTruthy, strTruthy]
    norm_num

/-- C6: when the analysis body raises, `detect_content_fraud` returns the
structured fallback: risk level "medium", confidence score 0, no fraud
indicators, and the manual-review recommendation. -/
theorem detect_content_fraud_fallback_on_failure (cd : ContentData) :
    (detect_content_fraud cd (.error ())).risk_level = "medium" ∧
    (detect_content_fraud cd (.error ())).confidence_score = 0 ∧
    (detect_content_fraud cd (.error ())).fraud_indicators = [] ∧
    (detect_content_fraud cd (.error ())).recommendations =
      ["Manual review recommended due to analysis failure"] :=
  ⟨rfl, rfl, rfl, rfl⟩

/-- C10: `_check_duplicate_content` registers the content hash, so a second
call on any record with the same title and description returns similarity
1.0, and a full `detect_content_fraud` run on such a re-analyzed record fires
the duplicate-content indicator with severity "high" (1.0 > 0.95), whatever
the other checks report. -/
theorem check_duplicate_content_stateful (env : FraudEnv) (r1 r2 : ℚ)
    (cd cd' : ContentData) (hashes : List String)
    (ht : cd'.title = cd.title) (hd : cd'.description = cd.description) :
    generate_content_hash cd ∈ (check_duplicate_content r1 cd hashes).2 ∧
    (check_duplicate_content r2 cd' ((check_duplicate_content r1 cd hashes).2)).1 = 1 ∧
    (run_detect_content_fraud env r2 cd'
        ((check_duplicate_content r1 cd hashes).2)).1.fraud_indicators.head? =
      some ⟨"duplicate_content", 1, "high"⟩ := by
  have hh : generate_content_hash cd' = generate_content_hash cd := by
    unfold generate_content_hash
    rw [ht, hd]
  have h17 : ((17:ℚ)/20 < 1) := by norm_num
  have h19 : ((19:ℚ)/20 < 1) := by norm_num
  have hr1 : round3 1 = 1 := by norm_num [round3, round_eq]
  by_cases hmem : generate_content_hash cd ∈ hashes <;>
    refine ⟨?_, ?_, ?_⟩ <;>
    simp [check_duplicate_content, run_detect_content_fraud, detect_content_fraud_core,
      fraud_indicators_of, hh, hmem, h17, h19, hr1]

/-- Environment with no other check firing, for the C10 witness. -/
def exEnv : FraudEnv := ⟨0, ⟨false, 0⟩, ⟨false, 0, "low"⟩, ⟨false, 0⟩⟩

/-- A concrete content record for the C10 witness. -/
def exContent : ContentData := { content_id := "c2", title := "t", description := "d" }

/-- Witness for C10: analyzing `exContent` twice from an empty hash store. -/
theorem check_duplicate_content_stateful_witness :
    generate_content_hash exContent ∈ (check_duplicate_content 0 exContent []).2 ∧
    (check_duplicate_content 0 exContent ((check_duplicate_content 0 exContent []).2)).1 = 1 ∧
    (run_detect_content_fraud exEnv 0 exContent
        ((check_duplicate_content 0 exContent []).2)).1.fraud_indicators.head? =
      some ⟨"duplicate_content", 1, "high"⟩ :=
  check_duplicate_content_stateful exEnv 0 0 exContent exContent [] rfl rfl

/-! ## config.py — `Config.validate_config`

The configuration values the validation reads become a structure; the
f-string error messages are modelled without their interpolated values. -/

/-- The configuration settings checked by `Config.validate_config`. -/
structure ConfigData where
  openai_api_key : String
  port : ℤ
  quality_weights : QualityWeights

/-- `sum(cls.QUALITY_WEIGHTS.values())`. -/
def weightSum (w : QualityWeights) : ℚ :=
  w.engagement + w.educational + w.creativity + w.safety + w.production

/-- The `QUALITY_WEIGHTS` dictionary of `config.py` (engagement 0.25,
educational 0.20, creativity 0.20, safety 0.20, production 0.15). -/
def configQualityWeights : QualityWeights :=
  { engagement := 1/4, educational := 1/5, creativity := 1/5,
    safety := 1/5, production := 3/20 }

/-- The `errors` list accumulated by `Config.validate_config`: missing
OpenAI key, invalid port, and weight sum off 1.0 by more than 0.01. -/
def validate_config_errors (c : ConfigData) : List String :=
  (if c.openai_api_key = "" then ["OPENAI_API_KEY is required"] else []) ++
  (if ¬(1 ≤ c.port ∧ c.port ≤ 65535) then ["Invalid port"] else []) ++
  (if 1/100 < |weightSum c.quality_weights - 1| then
    ["Quality weights must sum to 1.0"] else [])

/-- `Config.validate_config`: `True` iff no error was accumulated. -/
def validate_config (c : ConfigData) : Bool :=
  (validate_config_errors c).isEmpty

/-- C7: a weight vector whose sum is off 1.0 by more than 0.01 makes
validation fail; a weight vector within the ±0.01 tolerance raises no
weight-sum error, and validation succeeds outright when the remaining checks
(non-empty API key, valid port) also pass. -/
theorem validate_config_weight_tolerance :
    (∀ c : ConfigData, 1/100 < |weightSum c.quality_weights - 1| →
      validate_config c = false) ∧
    (∀ c : ConfigData, |weightSum c.quality_weights - 1| ≤ 1/100 →
      "Quality weights must sum to 1.0" ∉ validate_config_errors c) ∧
    (∀ c : ConfigData, |weightSum c.quality_weights - 1| ≤ 1/100 →
      c.openai_api_key ≠ "" → 1 ≤ c.port ∧ c.port ≤ 65535 →
      validate_config c = true) := by
  refine ⟨?_, ?_, ?_⟩
  · intro c h
    simp only [validate_config, validate_config_errors, if_pos h]
    by_cases h1 : c.openai_api_key = "" <;>
      by_cases h2 : 1 ≤ c.port ∧ c.port ≤ 65535 <;>
      simp [h1, h2]
  · intro c h
    simp only [validate_config_errors, if_neg (not_lt.mpr h)]
    by_cases h1 : c.openai_api_key = "" <;>
      by_cases h2 : 1 ≤ c.port ∧ c.port ≤ 65535 <;>
      simp [h1, h2]
  · intro c h hk hp
    simp only [validate_config, validate_config_errors, if_neg hk,
      if_neg (not_not_intro hp), if_neg (not_lt.mpr h)]
    rfl

/-- Witness for C7: the shipped `config.py` weight vector (which sums to
exactly 1.0) with a non-empty API key and port 5000 validates; perturbing its
production weight to 0.20 (sum 1.05) fails validation. -/
theorem validate_config_weight_tolerance_witness :
    validate_config ⟨"key", 5000, configQualityWeights⟩ = true ∧
    validate_config ⟨"key", 5000,
      { configQualityWeights with production := 1/5 }⟩ = false :=
  ⟨validate_config_weight_tolerance.2.2 ⟨"key", 5000, configQualityWeights⟩
      (by norm_num [weightSum, configQualityWeights, abs_zero]) (by simp) (by norm_num),
   validate_config_weight_tolerance.1 ⟨"key", 5000,
      { configQualityWeights with production := 1/5 }⟩
      (by norm_num [weightSum, configQualityWeights, abs, max_def])⟩

/-! ## services/quality_scorer.py — `get_quality_trends`

One stored history entry; `timestamp` is the (chronologically increasing)
insertion time, scores are the stored overall scores.  The time-window cutoff
`datetime.utcnow() - timedelta(days=days)` enters as an explicit `cutoff`
parameter; entries strictly newer than the cutoff survive the filter. -/

/-- One entry of `self.quality_history[creator_id]`. -/
structure HistoryEntry where
  score : ℚ
  timestamp : ℚ

/-- The trends response: either the documented "no data" response or the
`trends` record (average/highest/lowest score, trend label, total count). -/
inductive TrendsResult where
  | noData
  | data (average_score highest_score lowest_score : ℚ)
      (score_trend : String) (total_content : ℕ)

/-- The `score_trend` field of a trends response, when present. -/
def TrendsResult.scoreTrend : TrendsResult → Option String
  | .noData => none
  | .data _ _ _ t _ => some t

/-- `QualityScorer.get_quality_trends` on one creator's history: filter to
entries after the cutoff; an empty filtered window yields the "no data"
response; otherwise `np.mean`/`max`/`min` of the scores (rounded to 3
decimals) and `'improving' if len(scores) > 1 and scores[-1] > scores[0]
else 'stable'`. -/
def get_quality_trends (cutoff : ℚ) (history : List HistoryEntry) : TrendsResult :=
  let recent_history := history.filter (fun e => cutoff < e.timestamp)
  match recent_history with
  | [] => .noData
  | e :: rest =>
    let scores := (e :: rest).map (·.score)
    .data (round3 (scores.sum / scores.length))
      (round3 (rest.foldl (fun m x => max m x.score) e.score))
      (round3 (rest.foldl (fun m x => min m x.score) e.score))
      (if 1 < scores.length ∧ e.score < scores.getLast?.getD 0
        then "improving" else "stable")
      (e :: rest).length

theorem getLast?_map (f : α → β) : ∀ l : List α, (l.map f).getLast? = (l.getLast?).map f := by
  intro l
  induction l with
  | nil => rfl
  | cons a t ih =>
    cases t with
    | nil => rfl
    | cons b u =>
      rw [List.map_cons, List.map_cons, List.getLast?_cons_cons, List.getLast?_cons_cons,
        ← List.map_cons]
      exact ih

/-- In a list sorted by timestamp, every element is at most the last one. -/
theorem pairwise_le_getLast? :
    ∀ (l : List HistoryEntry) (y : HistoryEntry),
      l.Pairwise (fun a b => a.timestamp ≤ b.timestamp) → l.getLast? = some y →
      ∀ x ∈ l, x.timestamp ≤ y.timestamp := by
  intro l
  induction l with
  | nil => intro y _ hy; simp at hy
  | cons a t ih =>
    intro y hp hy x hx
    cases t with
    | nil =>
      simp only [List.getLast?_singleton, Option.some_inj] at hy
      subst hy
      simp only [List.mem_singleton] at hx
      subst hx
      exact le_refl _
    | cons b u =>
      rw [List.getLast?_cons_cons] at hy
      have hp' := List.pairwise_cons.mp hp
      rcases List.mem_cons.mp hx with rfl | hx'
      · have hne : (b :: u) ≠ [] := List.cons_ne_nil _ _
        rw [List.getLast?_eq_getLast_of_ne_nil hne] at hy
        injection hy with hy2
        subst hy2
        exact hp'.1 _ (List.getLast_mem hne)
      · exact ih y hp'.2 hy x hx'

/-- `get_quality_trends` with `creator_id = None`: the per-creator histories
of `self.quality_history` (an association list creator id → history) are
concatenated with `history.extend(creator_history)` in store order — NOT
re-sorted by timestamp — before the shared filter/trend logic runs. -/
def get_quality_trends_all (cutoff : ℚ)
    (quality_history : List (String × List HistoryEntry)) : TrendsResult :=
  get_quality_trends cutoff ((quality_history.map (·.2)).flatten)

/-- Two creators with interleaved activity: creator A scores 0.2 at time 1
and 0.9 at time 3, creator B scores 0.1 at time 2. -/
def exQualityHistory : List (String × List HistoryEntry) :=
  [("creatorA", [⟨1/5, 1⟩, ⟨9/10, 3⟩]), ("creatorB", [⟨1/10, 2⟩])]

/-- C8 counterexample: on the all-creators aggregation of
`exQualityHistory` the filtered window is `[0.2@t1, 0.9@t3, 0.1@t2]` — three
entries survive, all timestamps lie in [1, 3] so the entry at the unique
earliest time 1 has score 0.2 and the entry at the unique latest time 3 has
score 0.9 > 0.2 — yet the reported trend is "stable", because the code
compares the positional `scores[-1] > scores[0]` on the unsorted
concatenation (0.1 is not > 0.2). -/
theorem get_quality_trends_aggregate_counterexample :
    ((exQualityHistory.map (·.2)).flatten).filter (fun e => (0:ℚ) < e.timestamp) =
      [⟨1/5, 1⟩, ⟨9/10, 3⟩, ⟨1/10, 2⟩] ∧
    (∀ x ∈ ((exQualityHistory.map (·.2)).flatten).filter
        (fun e => (0:ℚ) < e.timestamp),
      (1:ℚ) ≤ x.timestamp ∧ x.timestamp ≤ 3) ∧
    (1:ℚ)/5 < 9/10 ∧
    (get_quality_trends_all 0 exQualityHistory).scoreTrend = some "stable" := by
  have hfil : ((exQualityHistory.map (·.2)).flatten).filter
      (fun e => (0:ℚ) < e.timestamp) = [⟨1/5, 1⟩, ⟨9/10, 3⟩, ⟨1/10, 2⟩] := by
    norm_num [exQualityHistory]
  refine ⟨hfil, ?_, by norm_num, ?_⟩
  · intro x hx
    rw [hfil] at hx
    simp only [List.mem_cons, List.not_mem_nil, or_false] at hx
    rcases hx with rfl | rfl | rfl
    · exact ⟨le_refl _, by norm_num⟩
    · exact ⟨by norm_num, le_refl _⟩
    · exact ⟨by norm_num, by norm_num⟩
  · simp only [get_quality_trends_all, get_quality_trends, hfil]
    norm_num [TrendsResult.scoreTrend]

/-- C8 (amended): for every trend query — including the all-creators
aggregation, which runs the same logic on the order-of-storage concatenation
of the per-creator histories — an empty filtered window yields the distinct
"no data" response, and otherwise the score trend is "improving" iff at
least two entries remain and the positionally last score strictly exceeds
the positionally first, "stable" in every other case.  Only for a history
stored in chronological order (as each single creator's history is, being
append-only) do the positional first and last coincide with the
chronologically first and last; the aggregated history need not be so
ordered. -/
theorem get_quality_trends_positional_spec (cutoff : ℚ) :
    (∀ quality_history : List (String × List HistoryEntry),
      get_quality_trends_all cutoff quality_history =
        get_quality_trends cutoff ((quality_history.map (·.2)).flatten)) ∧
    (∀ history : List HistoryEntry,
      (get_quality_trends cutoff history = .noData ↔
        history.filter (fun e => cutoff < e.timestamp) = []) ∧
      (∀ e rest, history.filter (fun e => cutoff < e.timestamp) = e :: rest →
        (get_quality_trends cutoff history).scoreTrend =
          some (if 1 < (e :: rest).length ∧
              e.score < (((e :: rest).getLast?).getD e).score
            then "improving" else "stable"))) ∧
    (∀ history : List HistoryEntry,
      history.Pairwise (fun a b => a.timestamp ≤ b.timestamp) →
      ∀ e rest, history.filter (fun e => cutoff < e.timestamp) = e :: rest →
        (∀ x ∈ e :: rest, e.timestamp ≤ x.timestamp) ∧
        (∀ x ∈ e :: rest, x.timestamp ≤ (((e :: rest).getLast?).getD e).timestamp)) := by
  refine ⟨fun _ => rfl, ?_, ?_⟩
  · intro history
    constructor
    · cases hfe : history.filter (fun e => cutoff < e.timestamp) with
      | nil => simp [get_quality_trends, hfe]
      | cons e rest => simp [get_quality_trends, hfe]
    · intro e rest hfe
      have hne : (e :: rest) ≠ [] := List.cons_ne_nil _ _
      have hscores : ((e :: rest).map (fun x => x.score)).getLast?.getD 0 =
          (((e :: rest).getLast?).getD e).score := by
        rw [getLast?_map, List.getLast?_eq_getLast_of_ne_nil hne]
        rfl
      simp only [get_quality_trends, hfe, TrendsResult.scoreTrend, hscores,
        List.length_map]
  · intro history hchron e rest hfe
    have hpw : (e :: rest).Pairwise (fun a b => a.timestamp ≤ b.timestamp) := by
      rw [← hfe]
      exact List.Pairwise.sublist (List.filter_sublist _) hchron
    have hne : (e :: rest) ≠ [] := List.cons_ne_nil _ _
    have hlast : ((e :: rest).getLast?).getD e = (e :: rest).getLast hne := by
      rw [List.getLast?_eq_getLast_of_ne_nil hne]
      rfl
    refine ⟨?_, ?_⟩
    · intro x hx
      rcases List.mem_cons.mp hx with rfl | hx'
      · exact le_refl _
      · exact (List.pairwise_cons.mp hpw).1 x hx'
    · intro x hx
      rw [hlast]
      exact pairwise_le_getLast? (e :: rest) _ hpw
        (List.getLast?_eq_getLast_of_ne_nil hne) x hx

/-- A single creator's two-entry history, stored chronologically, whose
second score is higher: the trend must be "improving". -/
def exHistory : List HistoryEntry := [⟨1/2, 1⟩, ⟨3/4, 2⟩]

/-- Witness for C8 at concrete inputs: on `exHistory` with cutoff 0 the
trends query reports an improving score trend, and (per the chronological
part, whose sortedness hypothesis `exHistory` satisfies) its first filtered
entry is chronologically earliest. -/
theorem get_quality_trends_positional_spec_witness :
    (get_quality_trends 0 exHistory).scoreTrend = some "improving" ∧
    (∀ x ∈ ([⟨1/2, 1⟩, ⟨3/4, 2⟩] : List HistoryEntry),
      (⟨1/2, 1⟩ : HistoryEntry).timestamp ≤ x.timestamp) := by
  constructor
  · have h := ((get_quality_trends_positional_spec 0).2.1 exHistory).2
      ⟨1/2, 1⟩ [⟨3/4, 2⟩] (by norm_num [exHistory])
    rw [h]
    norm_num
  · have h := (get_quality_trends_positional_spec 0).2.2 exHistory
      (by norm_num [exHistory, List.pairwise_cons])
      ⟨1/2, 1⟩ [⟨3/4, 2⟩] (by norm_num [exHistory])
    exact h.1

/-! ## app.py — `analyze_batch`

The per-item body of the batch loop (cache lookup, feature extraction,
scoring, fraud assessment) is abstracted as a function `f` from the item to
either an assessment (modelled by its quality index) or the message of the
exception it raised; the loop turns the latter into a per-item error entry
and keeps going. -/

/-- One element of the request's `contents` list. -/
structure BatchItem where
  content_id : String

/-- One element of the response's `results` list: a successful assessment or
the per-item error entry appended by the `except` branch. -/
inductive BatchItemResult where
  | success (content_id : String) (assessment : ℚ)
  | failure (content_id : String) (error : String)

/-- The body of the `for content in contents:` loop for one item. -/
def analyze_one (f : BatchItem → Except String ℚ) (c : BatchItem) : BatchItemResult :=
  match f c with
  | .ok a => .success c.content_id a
  | .error e => .failure c.content_id e

/-- `analyze_batch`: empty-list and size-cap validation (max 50), then the
per-item loop. -/
def analyze_batch (f : BatchItem → Except String ℚ) (contents : List BatchItem) :
    Except String (List BatchItemResult) :=
  if contents.isEmpty then .error "No contents provided"
  else if 50 < contents.length then .error "Batch size too large (max 50)"
  else .ok (contents.map (analyze_one f))

/-- Whether the per-item analysis completed. -/
def exceptOk : Except String ℚ → Bool
  | .ok _ => true
  | .error _ => false

/-- Number of successful entries in a batch result list. -/
def countSuccesses (rs : List BatchItemResult) : ℕ :=
  (rs.filter (fun r => match r with | .success _ _ => true | .failure _ _ => false)).length

/-- Number of per-item error entries in a batch result list. -/
def countFailures (rs : List BatchItemResult) : ℕ :=
  (rs.filter (fun r => match r with | .success _ _ => false | .failure _ _ => true)).length

theorem countSuccesses_map (f : BatchItem → Except String ℚ) :
    ∀ contents : List BatchItem,
      countSuccesses (contents.map (analyze_one f)) =
        (contents.filter (fun c => exceptOk (f c))).length := by
  intro contents
  induction contents with
  | nil => rfl
  | cons c t ih =>
    cases hfc : f c with
    | ok a =>
      simp only [List.map_cons, countSuccesses, List.filter, analyze_one, hfc, exceptOk]
      simpa [countSuccesses] using ih
    | error e =>
      simp only [List.map_cons, countSuccesses, List.filter, analyze_one, hfc, exceptOk]
      simpa [countSuccesses] using ih

theorem countFailures_map (f : BatchItem → Except String ℚ) :
    ∀ contents : List BatchItem,
      countFailures (contents.map (analyze_one f)) =
        (contents.filter (fun c => !exceptOk (f c))).length := by
  intro contents
  induction contents with
  | nil => rfl
  | cons c t ih =>
    cases hfc : f c with
    | ok a =>
      simp only [List.map_cons, countFailures, List.filter, analyze_one, hfc, exceptOk]
      simpa [countFailures] using ih
    | error e =>
      simp only [List.map_cons, countFailures, List.filter, analyze_one, hfc, exceptOk]
      simpa [countFailures] using ih

/-- C9: an empty batch and a batch of more than 50 items are rejected with
the validation errors; an accepted batch yields one result per item, where
item `i`'s entry depends only on item `i`'s own analysis outcome, the number
of successful entries equals the number of items whose analysis completed,
and the number of per-item error entries equals the number of items whose
analysis raised — so one failing item never aborts the others. -/
theorem analyze_batch_spec :
    (∀ f, analyze_batch f [] = .error "No contents provided") ∧
    (∀ f (contents : List BatchItem), 50 < contents.length →
      analyze_batch f contents = .error "Batch size too large (max 50)") ∧
    (∀ f (contents : List BatchItem), contents ≠ [] → contents.length ≤ 50 →
      analyze_batch f contents = .ok (contents.map (analyze_one f)) ∧
      (contents.map (analyze_one f)).length = contents.length ∧
      (∀ i (hi : i < contents.length),
        (contents.map (analyze_one f)).get ⟨i, by simpa using hi⟩ =
          analyze_one f (contents.get ⟨i, hi⟩)) ∧
      countSuccesses (contents.map (analyze_one f)) =
        (contents.filter (fun c => exceptOk (f c))).length ∧
      countFailures (contents.map (analyze_one f)) =
        (contents.filter (fun c => !exceptOk (f c))).length) := by
  refine ⟨fun f => rfl, ?_, ?_⟩
  · intro f contents h
    have hne : contents.isEmpty = false := by
      cases contents with
      | nil => simp at h
      | cons a t => rfl
    simp [analyze_batch, hne, h]
  · intro f contents hne hle
    have hne' : contents.isEmpty = false := by
      cases contents with
      | nil => exact absurd rfl hne
      | cons a t => rfl
    refine ⟨by simp [analyze_batch, hne', not_lt.mpr hle], by simp, ?_,
      countSuccesses_map f contents, countFailures_map f contents⟩
    intro i hi
    simp [List.getElem_map]

/-- Per-item analysis used in the C9 witness: the item with content id
`"bad"` is malformed, every other item analyzes successfully. -/
def exAnalyze : BatchItem → Except String ℚ :=
  fun c => if c.content_id = "bad" then .error "malformed item" else .ok 1

/-- Ten valid items and one malformed item. -/
def exItems : List BatchItem :=
  [⟨"a1"⟩, ⟨"a2"⟩, ⟨"a3"⟩, ⟨"a4"⟩, ⟨"a5"⟩, ⟨"a6"⟩, ⟨"a7"⟩, ⟨"a8"⟩, ⟨"a9"⟩, ⟨"a10"⟩,
   ⟨"bad"⟩]

/-- Witness for C9: the empty batch and a 51-item batch are rejected, while
the 11-item batch with one malformed item returns per-item results with 10
successes and 1 per-item error. -/
theorem analyze_batch_spec_witness :
    analyze_batch exAnalyze [] = .error "No contents provided" ∧
    analyze_batch exAnalyze (List.replicate 51 ⟨"x"⟩) =
      .error "Batch size too large (max 50)" ∧
    analyze_batch exAnalyze exItems = .ok (exItems.map (analyze_one exAnalyze)) ∧
    countSuccesses (exItems.map (analyze_one exAnalyze)) = 10 ∧
    countFailures (exItems.map (analyze_one exAnalyze)) = 1 := by
  have h3 := analyze_batch_spec.2.2 exAnalyze exItems (by simp [exItems])
    (by simp [exItems])
  refine ⟨analyze_batch_spec.1 exAnalyze,
    analyze_batch_spec.2.1 exAnalyze _ (by simp),
    h3.1, ?_, ?_⟩
  · rw [h3.2.2.2.1]
    simp [exItems, exAnalyze, exceptOk]
  · rw [h3.2.2.2.2]
    simp [exItems, exAnalyze, exceptOk]
